import Mathlib

/-
Verification development for the athena-backend account authentication and
repository layer.

The embedding translates the Python sources into Lean:
  - src/apps/api/migrations/001_init_db.py   (accounts table and its partial
    unique index on email where deleted_at is null)
  - src/apps/api/repository/account_repository.py
  - src/apps/api/service/account_service.py
  - src/apps/api/service/auth_service.py
  - src/shared/models/account.py
  - src/shared/security/password.py

Modelling conventions:
  - Timestamps are natural numbers (an abstract clock); NOW() is passed in as
    an explicit `now` argument.
  - The database state is the list of rows of the accounts table.
  - A storage fault (any psycopg.errors.Error other than a unique violation)
    is an environment event, passed to each repository operation as a Boolean
    `fault` input.  A unique violation is determined by the database state
    itself, per the partial unique index of the migration.
  - bcrypt hash strings are modelled by `HashInput`: either a well-formed
    bcrypt hash (carrying the salt and the hashed password) or a malformed /
    foreign string on which bcrypt.checkpw would throw.
  - JWTs are modelled by `Token`: either a well-formed token signed with some
    secret and carrying the structured claims of this service, or a malformed
    string.  jose's jwt.decode succeeds exactly when the signature secret
    matches and the embedded expiration has not passed (jose raises
    ExpiredSignatureError, a JWTError, when exp < now).
-/

namespace Athena

/-- A row of the accounts table, per the migration 001_init_db.py: columns
id, email, password_hash (nullable), is_superadmin (default false), status
(default 'created'), created_at, updated_at, confirmed_at, deleted_at. -/
structure AccountRow where
  id : String
  email : String
  password_hash : Option String
  is_superadmin : Bool
  status : String
  created_at : Nat
  updated_at : Nat
  confirmed_at : Option Nat
  deleted_at : Option Nat
  deriving DecidableEq, Repr

/-- The state of the accounts table. -/
abbrev DB := List AccountRow

/-- ReadAccountDto from src/shared/models/account.py: fields id, email,
status, confirmed_at, created_at, updated_at, deleted_at.  Note that the
dataclass declares NO password_hash field; pydantic drops the extra
password_hash and is_superadmin keys of a SELECT * row. -/
structure ReadAccountDto where
  id : String
  email : String
  status : String
  confirmed_at : Option Nat
  created_at : Nat
  updated_at : Nat
  deleted_at : Option Nat
  deriving DecidableEq, Repr

/-- ReadAccountDto(**row): keeps the declared fields of the row and drops
password_hash and is_superadmin. -/
def readDtoOfRow (r : AccountRow) : ReadAccountDto :=
  { id := r.id
    email := r.email
    status := r.status
    confirmed_at := r.confirmed_at
    created_at := r.created_at
    updated_at := r.updated_at
    deleted_at := r.deleted_at }

/-- Errors raised by AccountRepository
(src/apps/api/repository/account_repository.py). -/
inductive AccountRepoError where
  | accountAlreadyExists
  | accountNotFound
  | accountRepositoryError
  deriving DecidableEq, Repr

/-- A bcrypt hash: the salt used and the password it was computed from.
`bcrypt.checkpw(p, h)` on a well-formed h returns whether p matches. -/
structure BcryptHash where
  salt : Nat
  password : String
  deriving DecidableEq, Repr

/-- A candidate hash string handed to verification: either a well-formed
bcrypt hash or a malformed / foreign-format string. -/
inductive HashInput where
  | wellFormed (h : BcryptHash)
  | malformed (s : String)
  deriving DecidableEq, Repr

/-- bcrypt.checkpw: compares the plaintext against a well-formed hash and
throws (modelled as `Except.error`) on a malformed or foreign hash. -/
def checkpw (plain : String) : HashInput → Except Unit Bool
  | .wellFormed h => .ok (plain == h.password)
  | .malformed _ => .error ()

/-- hash_password from src/shared/security/password.py: bcrypt.hashpw with a
freshly generated salt, producing a well-formed hash string. -/
def hash_password (salt : Nat) (plain_password : String) : HashInput :=
  .wellFormed { salt := salt, password := plain_password }

/-- verify_password from src/shared/security/password.py: returns
bcrypt.checkpw, with every exception caught and mapped to False. -/
def verify_password (plain_password : String) (hashed_password : HashInput) : Bool :=
  match checkpw plain_password hashed_password with
  | .ok b => b
  | .error _ => false

/-- CreateAccountDto from src/shared/models/account.py: email and a
pre-hashed password. -/
structure CreateAccountDto where
  email : String
  password_hash : HashInput
  deriving DecidableEq, Repr

/-- UpdateAccountDto from src/shared/models/account.py: optional email,
status and password_hash. -/
structure UpdateAccountDto where
  email : Option String := none
  status : Option String := none
  password_hash : Option HashInput := none
  deriving DecidableEq, Repr

/-- RegisterAccountDto from src/shared/models/account.py. -/
structure RegisterAccountDto where
  email : String
  password : String
  confirm_password : String
  deriving DecidableEq, Repr

/-- The row written by AccountRepository.create_account's statement
`INSERT INTO accounts (email) VALUES (%s) RETURNING *`.  Only the email
column is supplied, so every other column takes its schema default:
password_hash NULL, is_superadmin false, status 'created', created_at and
updated_at the current timestamp, confirmed_at and deleted_at NULL. -/
def insertedRow (email : String) (newId : String) (now : Nat) : AccountRow :=
  { id := newId
    email := email
    password_hash := none
    is_superadmin := false
    status := "created"
    created_at := now
    updated_at := now
    confirmed_at := none
    deleted_at := none }

/-- Whether a row is live (deleted_at IS NULL) and carries the given email;
the partial unique index accounts_email_idx makes the INSERT raise
UniqueViolation exactly when such a row exists. -/
def liveEmail (email : String) (r : AccountRow) : Bool :=
  r.email == email && r.deleted_at.isNone

/-- Whether a row is live and carries the given id (the WHERE clause
`id = %s AND deleted_at IS NULL`). -/
def liveId (account_id : String) (r : AccountRow) : Bool :=
  r.id == account_id && r.deleted_at.isNone

/-- AccountRepository.create_account: inserts a new row holding only the
email, mapping UniqueViolation to AccountAlreadyExistsError and any other
psycopg error to AccountRepositoryError.  `newId` is the uuid generated by
the database, `now` the current timestamp, `fault` whether the statement
fails with a storage fault. -/
def AccountRepository.create_account (db : DB) (now : Nat) (newId : String)
    (fault : Bool) (dto : CreateAccountDto) :
    Except AccountRepoError (ReadAccountDto × DB) :=
  if fault then .error .accountRepositoryError
  else if (db : List AccountRow).any (liveEmail dto.email) then
    .error .accountAlreadyExists
  else
    let row := insertedRow dto.email newId now
    .ok (readDtoOfRow row, (db : List AccountRow) ++ [row])

/-- AccountRepository.get_account_by_id: SELECT * WHERE id = %s AND
deleted_at IS NULL; a missing row raises AccountNotFoundError, a storage
fault AccountRepositoryError. -/
def AccountRepository.get_account_by_id (db : DB) (fault : Bool)
    (account_id : String) : Except AccountRepoError ReadAccountDto :=
  if fault then .error .accountRepositoryError
  else
    match (db : List AccountRow).find? (liveId account_id) with
    | none => .error .accountNotFound
    | some row => .ok (readDtoOfRow row)

/-- AccountRepository.get_account_by_email: SELECT * WHERE email = %s AND
deleted_at IS NULL; a missing row raises AccountNotFoundError, a storage
fault AccountRepositoryError. -/
def AccountRepository.get_account_by_email (db : DB) (fault : Bool)
    (email : String) : Except AccountRepoError ReadAccountDto :=
  if fault then .error .accountRepositoryError
  else
    match (db : List AccountRow).find? (liveEmail email) with
    | none => .error .accountNotFound
    | some row => .ok (readDtoOfRow row)

/-- The SET clause fragments built by AccountRepository.update_account:
`email = %s` when dto.email is supplied, `status = %s` when dto.status is
supplied, and always `updated_at = NOW()`.  No other field of the DTO is
consulted. -/
def updateSetColumns (dto : UpdateAccountDto) : List String :=
  (if dto.email.isSome then ["email = %s"] else []) ++
    (if dto.status.isSome then ["status = %s"] else []) ++
      ["updated_at = NOW()"]

/-- The effect of update_account's SET clause on one row: email and status
overwritten when supplied, updated_at refreshed, everything else kept. -/
def applyUpdate (dto : UpdateAccountDto) (now : Nat) (r : AccountRow) : AccountRow :=
  { r with
    email := dto.email.getD r.email
    status := dto.status.getD r.status
    updated_at := now }

/-- AccountRepository.update_account: UPDATE accounts SET ... WHERE id = %s
AND deleted_at IS NULL RETURNING *; no returned row raises
AccountNotFoundError, a storage fault AccountRepositoryError. -/
def AccountRepository.update_account (db : DB) (now : Nat) (fault : Bool)
    (account_id : String) (dto : UpdateAccountDto) :
    Except AccountRepoError (ReadAccountDto × DB) :=
  if fault then .error .accountRepositoryError
  else
    match (db : List AccountRow).find? (liveId account_id) with
    | none => .error .accountNotFound
    | some row =>
        .ok (readDtoOfRow (applyUpdate dto now row),
          ((db : List AccountRow).map fun r =>
            if liveId account_id r then applyUpdate dto now r else r))

/-- The table state after delete_account's UPDATE statement: deleted_at set
to NOW() on every live row with the given id. -/
def deleteMatches (db : DB) (now : Nat) (account_id : String) : DB :=
  (db : List AccountRow).map fun r =>
    if liveId account_id r then { r with deleted_at := some now } else r

/-- AccountRepository.delete_account: UPDATE accounts SET deleted_at = NOW()
WHERE id = %s AND deleted_at IS NULL; an affected-row count of zero raises
AccountNotFoundError, a storage fault AccountRepositoryError. -/
def AccountRepository.delete_account (db : DB) (now : Nat) (fault : Bool)
    (account_id : String) : Except AccountRepoError DB :=
  if fault then .error .accountRepositoryError
  else if (db : List AccountRow).countP (liveId account_id) = 0 then
    .error .accountNotFound
  else .ok (deleteMatches db now account_id)

/-- Concrete account rows and values used to instantiate the theorems. -/
def sampleLiveRow : AccountRow :=
  { id := "id-1"
    email := "a@x.com"
    password_hash := none
    is_superadmin := false
    status := "active"
    created_at := 0
    updated_at := 0
    confirmed_at := none
    deleted_at := none }

/-- A soft-deleted row carrying the same email as sampleLiveRow. -/
def sampleDeletedRow : AccountRow :=
  { sampleLiveRow with id := "id-0", deleted_at := some 3 }

/-- The structured claims payload carried by this service's JWTs: sub (the
account id), email, status, the type discriminator and the absolute
expiration timestamp added by _create_token. -/
structure Claims where
  sub : String
  email : String
  status : String
  type : String
  exp : Nat
  deriving DecidableEq, Repr

/-- A claims payload before _create_token adds the exp claim. -/
structure Payload where
  sub : String
  email : String
  status : String
  type : String
  deriving DecidableEq, Repr

/-- A JWT handed to decoding: either a well-formed token signed with some
secret and carrying claims, or a malformed string. -/
inductive Token where
  | signed (claims : Claims) (secret : String)
  | malformed (s : String)
  deriving DecidableEq, Repr

/-- The configuration fields consumed by AuthService
(src/shared/config/config.py). -/
structure Config where
  access_token_secret : String
  refresh_token_secret : String
  access_token_expires : Nat
  refresh_token_expires : Nat
  deriving DecidableEq, Repr

/-- jose's jwt.decode(token, secret): succeeds exactly when the token is
well-formed, its signature verifies under the given secret, and its
embedded expiration has not passed (jose raises ExpiredSignatureError, a
JWTError, when exp < now); every failure raises a JWTError. -/
def jwtDecode (now : Nat) (secret : String) : Token → Except Unit Claims
  | .signed c s => if s == secret && now ≤ c.exp then .ok c else .error ()
  | .malformed _ => .error ()

/-- Errors raised by AuthService (src/apps/api/service/auth_service.py). -/
inductive AuthError where
  | invalidCredentials
  | tokenError
  deriving DecidableEq, Repr

/-- AuthService._create_token: copies the payload, adds exp = now +
expires_delta, and signs with the given secret. -/
def AuthService.create_token (data : Payload) (now : Nat) (expires_delta : Nat)
    (secret : String) : Token :=
  .signed
    { sub := data.sub
      email := data.email
      status := data.status
      type := data.type
      exp := now + expires_delta }
    secret

/-- AuthService._decode_token: jwt.decode with every JWTError caught and
re-raised as the single TokenError kind. -/
def AuthService.decode_token (now : Nat) (token : Token) (secret : String) :
    Except AuthError Claims :=
  match jwtDecode now secret token with
  | .ok payload => .ok payload
  | .error _ => .error .tokenError

/-- The dict returned by login and refresh_tokens:
{access_token, refresh_token, token_type, expires_in}. -/
structure TokenResponse where
  access_token : Token
  refresh_token : Token
  token_type : String
  expires_in : Nat
  deriving DecidableEq, Repr

/-- The account object as AuthService.login consumes it: the attributes it
reads are id, email, status, and password_hash via
getattr(account, "password_hash", None). -/
structure LoginAccount where
  id : String
  email : String
  status : String
  password_hash : Option HashInput
  deriving DecidableEq, Repr

/-- AuthService.login, parameterised by the outcome of the injected
repository's get_account_by_email call: `.error` when the lookup raised any
exception, `.ok none` when it returned a falsy account, `.ok (some a)`
otherwise.  Mirrors the source's control flow: lookup failure, a falsy
account, a missing password hash and a failed password verification each
raise InvalidCredentialsError; on success an access and a refresh token are
issued from the account's id, email and status. -/
def AuthService.login (cfg : Config) (now : Nat)
    (lookup : Except Unit (Option LoginAccount)) (password : String) :
    Except AuthError TokenResponse :=
  match lookup with
  | .error _ => .error .invalidCredentials
  | .ok none => .error .invalidCredentials
  | .ok (some account) =>
      match account.password_hash with
      | none => .error .invalidCredentials
      | some ph =>
          if verify_password password ph then
            let payload : Payload :=
              { sub := account.id
                email := account.email
                status := account.status
                type := "access" }
            let access_token :=
              AuthService.create_token payload now cfg.access_token_expires
                cfg.access_token_secret
            let refresh_payload : Payload := { payload with type := "refresh" }
            let refresh_token :=
              AuthService.create_token refresh_payload now
                cfg.refresh_token_expires cfg.refresh_token_secret
            .ok
              { access_token := access_token
                refresh_token := refresh_token
                token_type := "bearer"
                expires_in := cfg.access_token_expires }
          else .error .invalidCredentials

/-- The LoginAccount that login sees for a ReadAccountDto returned by the
real AccountRepository: ReadAccountDto declares no password_hash field, so
getattr(account, "password_hash", None) yields None. -/
def loginAccountOfDto (d : ReadAccountDto) : LoginAccount :=
  { id := d.id
    email := d.email
    status := d.status
    password_hash := none }

/-- The lookup outcome login observes when wired to the real
AccountRepository.get_account_by_email: the repository either raises (any
exception) or returns a truthy ReadAccountDto. -/
def repoLookup (db : DB) (fault : Bool) (email : String) :
    Except Unit (Option LoginAccount) :=
  match AccountRepository.get_account_by_email db fault email with
  | .ok d => .ok (some (loginAccountOfDto d))
  | .error _ => .error ()

/-- AuthService.login wired to the real AccountRepository. -/
def AuthService.login_full (cfg : Config) (db : DB) (fault : Bool) (now : Nat)
    (email password : String) : Except AuthError TokenResponse :=
  AuthService.login cfg now (repoLookup db fault email) password

/-- AuthService.refresh_tokens: decode under the refresh secret (any decode
failure is TokenError), reject with TokenError when the decoded type claim
is not "refresh", otherwise re-issue a fresh access+refresh pair from the
decoded sub, email and status. -/
def AuthService.refresh_tokens (cfg : Config) (now : Nat)
    (refresh_token : Token) : Except AuthError TokenResponse :=
  match AuthService.decode_token now refresh_token cfg.refresh_token_secret with
  | .error e => .error e
  | .ok decoded =>
      if decoded.type ≠ "refresh" then .error .tokenError
      else
        let payload : Payload :=
          { sub := decoded.sub
            email := decoded.email
            status := decoded.status
            type := "access" }
        let access_token :=
          AuthService.create_token payload now cfg.access_token_expires
            cfg.access_token_secret
        let refresh_payload : Payload := { payload with type := "refresh" }
        let new_refresh_token :=
          AuthService.create_token refresh_payload now cfg.refresh_token_expires
            cfg.refresh_token_secret
        .ok
          { access_token := access_token
            refresh_token := new_refresh_token
            token_type := "bearer"
            expires_in := cfg.access_token_expires }

/-- Errors raised by AccountService (src/apps/api/service/account_service.py):
PasswordMismatchError, or AccountServiceError with a message. -/
inductive ServiceError where
  | passwordMismatch
  | serviceError (msg : String)
  deriving DecidableEq, Repr

/-- AccountService.create_account (register): rejects mismatched password
confirmation, hashes the password, and delegates to the repository,
translating AccountAlreadyExistsError and AccountRepositoryError into
AccountServiceError messages.  Note the repository's INSERT statement only
persists the email, so the computed password_hash never reaches the row. -/
def AccountService.create_account (db : DB) (now : Nat) (newId : String)
    (salt : Nat) (fault : Bool) (dto : RegisterAccountDto) :
    Except ServiceError (ReadAccountDto × DB) :=
  if dto.password ≠ dto.confirm_password then .error .passwordMismatch
  else
    let password_hash := hash_password salt dto.password
    match AccountRepository.create_account db now newId fault
        { email := dto.email, password_hash := password_hash } with
    | .ok res => .ok res
    | .error .accountAlreadyExists =>
        .error (.serviceError "Account with this email already exists")
    | .error _ =>
        .error (.serviceError "Database error while creating account")

/-- A concrete configuration with distinct access and refresh secrets, as in
the repository's test fixtures. -/
def sampleCfg : Config :=
  { access_token_secret := "access_secret"
    refresh_token_secret := "refresh_secret"
    access_token_expires := 60
    refresh_token_expires := 3600 }

/-- A concrete pre-expiry claims payload. -/
def samplePayload : Payload :=
  { sub := "id-1", email := "a@x.com", status := "active", type := "access" }

/-- A concrete refresh-type token signed with sampleCfg's refresh secret. -/
def sampleRefreshToken : Token :=
  .signed
    { sub := "id-1", email := "a@x.com", status := "active", type := "refresh"
      exp := 100 }
    "refresh_secret"

/-- liveId unfolded to a proposition on the row. -/
theorem liveId_iff (account_id : String) (r : AccountRow) :
    liveId account_id r = true ↔ r.id = account_id ∧ r.deleted_at = none := by
  simp [liveId, Option.isNone_iff_eq_none]

/-- liveEmail unfolded to a proposition on the row. -/
theorem liveEmail_iff (email : String) (r : AccountRow) :
    liveEmail email r = true ↔ r.email = email ∧ r.deleted_at = none := by
  simp [liveEmail, Option.isNone_iff_eq_none]

/-- update_account raises AccountNotFoundError exactly when no live row with
the target id exists. -/
theorem update_account_notFound_iff (db : DB) (now : Nat) (account_id : String)
    (dto : UpdateAccountDto) :
    AccountRepository.update_account db now false account_id dto =
        .error .accountNotFound ↔
      ∀ r ∈ db, ¬(r.id = account_id ∧ r.deleted_at = none) := by
  unfold AccountRepository.update_account
  cases hf : db.find? (liveId account_id) with
  | none =>
      simp only [Bool.false_eq_true, if_false]
      constructor
      · intro _ r hr hlive
        exact absurd ((liveId_iff account_id r).mpr hlive)
          (by simpa using List.find?_eq_none.mp hf r hr)
      · intro _
        trivial
  | some row =>
      simp only [Bool.false_eq_true, if_false]
      constructor
      · intro h
        exact absurd h (by simp)
      · intro hall
        have hmem := List.mem_of_find?_eq_some hf
        have hp := List.find?_some hf
        exact absurd ((liveId_iff account_id row).mp hp) (hall row hmem)

/-- On success, update_account returns the mapped table: every live row with
the target id rewritten by applyUpdate, every other row kept. -/
theorem update_account_ok_inv (db : DB) (now : Nat) (account_id : String)
    (dto : UpdateAccountDto) (d2 : ReadAccountDto) (db2 : DB)
    (h : AccountRepository.update_account db now false account_id dto =
      .ok (d2, db2)) :
    db2 = db.map fun r =>
      if liveId account_id r then applyUpdate dto now r else r := by
  unfold AccountRepository.update_account at h
  cases hf : db.find? (liveId account_id) with
  | none => simp [hf] at h
  | some row =>
      simp [hf] at h
      exact h.2.symm

/-- C9: verify_password is total and never raises: it returns a boolean for
every plaintext and candidate hash, returning true exactly on a well-formed
hash of the same password, and mapping every bcrypt library error (malformed
or foreign hash format) to false instead of propagating it. -/
theorem verify_password_total_spec (plain : String) (hashed : HashInput) :
    (verify_password plain hashed = true ↔
      ∃ h, hashed = HashInput.wellFormed h ∧ plain = h.password) ∧
    (∀ e, checkpw plain hashed = Except.error e →
      verify_password plain hashed = false) := by
  constructor
  · cases hashed with
    | wellFormed h => simp [verify_password, checkpw]
    | malformed s => simp [verify_password, checkpw]
  · intro e he
    cases hashed with
    | wellFormed h => simp [checkpw] at he
    | malformed s => simp [verify_password, checkpw]

/-- Witness for C9: a malformed hash string, on which bcrypt.checkpw throws,
is mapped to false. -/
theorem verify_password_total_spec_witness :
    verify_password "secret1" (HashInput.malformed "not-a-bcrypt-hash") = false :=
  (verify_password_total_spec "secret1"
    (HashInput.malformed "not-a-bcrypt-hash")).2 () rfl

/-- C2: AuthService.login raises the single InvalidCredentialsError value in
every failure case: the repository lookup raising any exception, a falsy
account, an account without a password hash, and a failed password
verification; the caller cannot distinguish the causes. -/
theorem login_uniform_invalid_credentials (cfg : Config) (now : Nat)
    (password : String) :
    AuthService.login cfg now (.error ()) password =
        .error .invalidCredentials ∧
    AuthService.login cfg now (.ok none) password =
        .error .invalidCredentials ∧
    (∀ a : LoginAccount, a.password_hash = none →
      AuthService.login cfg now (.ok (some a)) password =
        .error .invalidCredentials) ∧
    (∀ a : LoginAccount, ∀ ph, a.password_hash = some ph →
      verify_password password ph = false →
      AuthService.login cfg now (.ok (some a)) password =
        .error .invalidCredentials) := by
  refine ⟨rfl, rfl, ?_, ?_⟩
  · intro a ha
    simp [AuthService.login, ha]
  · intro a ph ha hv
    simp [AuthService.login, ha, hv]

/-- Witness for C2: a concrete account whose stored hash does not verify the
supplied password yields InvalidCredentialsError. -/
theorem login_uniform_invalid_credentials_witness :
    AuthService.login sampleCfg 0
        (.ok (some
          { id := "id-1", email := "a@x.com", status := "active"
            password_hash := some (hash_password 7 "other") })) "secret1" =
      .error .invalidCredentials :=
  (login_uniform_invalid_credentials sampleCfg 0 "secret1").2.2.2
    { id := "id-1", email := "a@x.com", status := "active"
      password_hash := some (hash_password 7 "other") }
    (hash_password 7 "other") rfl (by decide)

/-- C3: _decode_token raises the single TokenError kind exactly when the
token is malformed, its signature does not verify under the given secret, or
its embedded expiration has passed; on success it returns the claims of a
token genuinely signed with that secret and not yet expired; and a token
signed with the access secret fails to decode under the refresh secret. -/
theorem decode_token_error_characterization (now : Nat) (secret : String)
    (token : Token) (cfg : Config) (data : Payload) (t0 t1 : Nat)
    (hsec : cfg.access_token_secret ≠ cfg.refresh_token_secret) :
    (AuthService.decode_token now token secret = .error .tokenError ↔
      ∀ c s, token = Token.signed c s → s ≠ secret ∨ c.exp < now) ∧
    (∀ c, AuthService.decode_token now token secret = .ok c →
      token = Token.signed c secret ∧ now ≤ c.exp) ∧
    AuthService.decode_token t1
        (AuthService.create_token data t0 cfg.access_token_expires
          cfg.access_token_secret)
        cfg.refresh_token_secret = .error .tokenError := by
  refine ⟨?_, ?_, ?_⟩
  · cases token with
    | malformed s => simp [AuthService.decode_token, jwtDecode]
    | signed c s =>
        by_cases hs : s = secret
        · by_cases he : now ≤ c.exp
          · simp only [AuthService.decode_token, jwtDecode, hs, beq_self_eq_true,
              true_and, he, decide_eq_true_eq, if_pos]
            constructor
            · intro h
              exact absurd h (by simp)
            · intro h
              rcases h c secret rfl with h1 | h2
              · exact absurd rfl h1
              · omega
          · simp only [AuthService.decode_token, jwtDecode]
            rw [if_neg (by simp [he])]
            constructor
            · intro _ c2 s2 hcs
              cases hcs
              right
              omega
            · intro _
              rfl
        · simp only [AuthService.decode_token, jwtDecode]
          rw [if_neg (by simp [hs])]
          constructor
          · intro _ c2 s2 hcs
            cases hcs
            exact Or.inl hs
          · intro _
            rfl
  · intro c hc
    cases token with
    | malformed s => simp [AuthService.decode_token, jwtDecode] at hc
    | signed c2 s2 =>
        simp only [AuthService.decode_token, jwtDecode] at hc
        by_cases hcond : (s2 == secret && decide (now ≤ c2.exp)) = true
        · rw [if_pos hcond] at hc
          cases hc
          simp only [Bool.and_eq_true, beq_iff_eq, decide_eq_true_eq] at hcond
          exact ⟨by rw [hcond.1], hcond.2⟩
        · rw [if_neg hcond] at hc
          cases hc
  · simp only [AuthService.decode_token, AuthService.create_token, jwtDecode]
    rw [if_neg (by simp [hsec])]

/-- Witness for C3: with distinct concrete secrets, a token created under
the access secret is rejected under the refresh secret with TokenError. -/
theorem decode_token_error_characterization_witness :
    AuthService.decode_token 10
        (AuthService.create_token samplePayload 0 sampleCfg.access_token_expires
          sampleCfg.access_token_secret)
        sampleCfg.refresh_token_secret = .error .tokenError :=
  (decode_token_error_characterization 0 "s" (Token.malformed "t") sampleCfg
    samplePayload 0 10 (by decide)).2.2

/-- On success, refresh_tokens returns exactly the re-issued pair built from
the decoded sub, email and status. -/
theorem refresh_tokens_ok_inv (cfg : Config) (now : Nat) (token : Token)
    (resp : TokenResponse)
    (h : AuthService.refresh_tokens cfg now token = .ok resp) :
    ∃ c, AuthService.decode_token now token cfg.refresh_token_secret = .ok c ∧
      c.type = "refresh" ∧
      resp =
        { access_token :=
            AuthService.create_token
              { sub := c.sub, email := c.email, status := c.status
                type := "access" }
              now cfg.access_token_expires cfg.access_token_secret
          refresh_token :=
            AuthService.create_token
              { sub := c.sub, email := c.email, status := c.status
                type := "refresh" }
              now cfg.refresh_token_expires cfg.refresh_token_secret
          token_type := "bearer"
          expires_in := cfg.access_token_expires } := by
  unfold AuthService.refresh_tokens at h
  cases hd : AuthService.decode_token now token cfg.refresh_token_secret with
  | error e => simp [hd] at h
  | ok c =>
      rw [hd] at h
      by_cases ht : c.type = "refresh"
      · refine ⟨c, rfl, ht, ?_⟩
        simp only [ht, ne_eq, not_true_eq_false, if_false] at h
        cases h
        rfl
      · simp [ht] at h

/-- A token whose claims do not carry type "refresh" is rejected by
refresh_tokens whatever secret it is signed with: either it fails to decode,
or the type check fails; both raise TokenError. -/
theorem refresh_tokens_rejects_non_refresh_type (cfg : Config) (now : Nat)
    (c : Claims) (s : String) (ht : c.type ≠ "refresh") :
    AuthService.refresh_tokens cfg now (Token.signed c s) =
      .error .tokenError := by
  unfold AuthService.refresh_tokens
  cases hd : AuthService.decode_token now (Token.signed c s)
      cfg.refresh_token_secret with
  | error e =>
      simp only [AuthService.decode_token] at hd
      cases hj : jwtDecode now cfg.refresh_token_secret (Token.signed c s) with
      | ok c2 => rw [hj] at hd; cases hd
      | error u => rw [hj] at hd; cases hd; rfl
  | ok c2 =>
      have hc2 : c2 = c := by
        simp only [AuthService.decode_token, jwtDecode] at hd
        by_cases hcond : (s == cfg.refresh_token_secret &&
            decide (now ≤ c.exp)) = true
        · rw [if_pos hcond] at hd
          cases hd
          rfl
        · rw [if_neg hcond] at hd
          cases hd
      rw [hc2]
      simp [ht]

/-- C4: refresh_tokens returns a fresh access+refresh pair exactly for
tokens that decode under the refresh secret with type claim "refresh"; any
decodable token of a different type is rejected with TokenError, and in
particular the access token issued by a successful refresh or login is
itself rejected by refresh_tokens. -/
theorem refresh_tokens_type_check (cfg : Config) (now now2 : Nat)
    (token : Token) :
    (∀ c, AuthService.decode_token now token cfg.refresh_token_secret = .ok c →
      c.type = "refresh" →
      AuthService.refresh_tokens cfg now token =
        .ok
          { access_token :=
              AuthService.create_token
                { sub := c.sub, email := c.email, status := c.status
                  type := "access" }
                now cfg.access_token_expires cfg.access_token_secret
            refresh_token :=
              AuthService.create_token
                { sub := c.sub, email := c.email, status := c.status
                  type := "refresh" }
                now cfg.refresh_token_expires cfg.refresh_token_secret
            token_type := "bearer"
            expires_in := cfg.access_token_expires }) ∧
    (∀ c, AuthService.decode_token now token cfg.refresh_token_secret = .ok c →
      c.type ≠ "refresh" →
      AuthService.refresh_tokens cfg now token = .error .tokenError) ∧
    (∀ resp, AuthService.refresh_tokens cfg now token = .ok resp →
      AuthService.refresh_tokens cfg now2 resp.access_token =
        .error .tokenError) ∧
    (∀ resp lookup password, AuthService.login cfg now lookup password =
        .ok resp →
      AuthService.refresh_tokens cfg now2 resp.access_token =
        .error .tokenError) := by
  refine ⟨?_, ?_, ?_, ?_⟩
  · intro c hc ht
    unfold AuthService.refresh_tokens
    rw [hc]
    simp [ht]
  · intro c hc ht
    unfold AuthService.refresh_tokens
    rw [hc]
    simp [ht]
  · intro resp h
    rcases refresh_tokens_ok_inv cfg now token resp h with ⟨c, _, _, hresp⟩
    rw [hresp]
    exact refresh_tokens_rejects_non_refresh_type cfg now2 _ _ (by simp)
  · intro resp lookup password h
    unfold AuthService.login at h
    split at h
    · cases h
    · cases h
    · split at h
      · cases h
      · split at h
        · cases h
          apply refresh_tokens_rejects_non_refresh_type
          simp
        · cases h

/-- Witness for C4: a concrete refresh-type token signed with the refresh
secret is accepted and re-issues the expected pair. -/
theorem refresh_tokens_type_check_witness :
    AuthService.refresh_tokens sampleCfg 0 sampleRefreshToken =
      .ok
        { access_token :=
            AuthService.create_token
              { sub := "id-1", email := "a@x.com", status := "active"
                type := "access" }
              0 sampleCfg.access_token_expires sampleCfg.access_token_secret
          refresh_token :=
            AuthService.create_token
              { sub := "id-1", email := "a@x.com", status := "active"
                type := "refresh" }
              0 sampleCfg.refresh_token_expires sampleCfg.refresh_token_secret
          token_type := "bearer"
          expires_in := sampleCfg.access_token_expires } :=
  (refresh_tokens_type_check sampleCfg 0 5 sampleRefreshToken).1
    { sub := "id-1", email := "a@x.com", status := "active", type := "refresh"
      exp := 100 }
    rfl rfl

/-- C5: create_account raises AccountAlreadyExistsError exactly when a
non-deleted row with the same email exists (the partial unique index);
when every row with that email is soft-deleted the insert succeeds; and any
other storage fault raises AccountRepositoryError. -/
theorem create_account_duplicate_email_spec (db : DB) (now : Nat)
    (newId : String) (dto : CreateAccountDto) :
    (AccountRepository.create_account db now newId false dto =
        .error .accountAlreadyExists ↔
      ∃ r ∈ db, r.email = dto.email ∧ r.deleted_at = none) ∧
    ((∀ r ∈ db, r.email = dto.email → r.deleted_at ≠ none) →
      AccountRepository.create_account db now newId false dto =
        .ok (readDtoOfRow (insertedRow dto.email newId now),
          db ++ [insertedRow dto.email newId now])) ∧
    AccountRepository.create_account db now newId true dto =
      .error .accountRepositoryError := by
  have hiff : db.any (liveEmail dto.email) = true ↔
      ∃ r ∈ db, r.email = dto.email ∧ r.deleted_at = none := by
    rw [List.any_eq_true]
    constructor
    · intro ⟨r, hr, hp⟩
      exact ⟨r, hr, (liveEmail_iff dto.email r).mp hp⟩
    · intro ⟨r, hr, hp⟩
      exact ⟨r, hr, (liveEmail_iff dto.email r).mpr hp⟩
  refine ⟨?_, ?_, rfl⟩
  · rw [← hiff]
    unfold AccountRepository.create_account
    by_cases h : db.any (liveEmail dto.email) = true
    · simp [h]
    · simp [h]
  · intro hall
    have h2 : db.any (liveEmail dto.email) = false := by
      rw [Bool.eq_false_iff]
      intro hc
      rcases hiff.mp hc with ⟨r, hr, he, hd⟩
      exact hall r hr he hd
    simp [AccountRepository.create_account, h2]

/-- Witness for C5: inserting an email carried only by a soft-deleted row
succeeds. -/
theorem create_account_duplicate_email_spec_witness :
    AccountRepository.create_account [sampleDeletedRow] 5 "id-2" false
        { email := "a@x.com", password_hash := hash_password 7 "secret1" } =
      .ok (readDtoOfRow (insertedRow "a@x.com" "id-2" 5),
        [sampleDeletedRow, insertedRow "a@x.com" "id-2" 5]) :=
  (create_account_duplicate_email_spec [sampleDeletedRow] 5 "id-2"
    { email := "a@x.com", password_hash := hash_password 7 "secret1" }).2.1
    (by decide)

/-- Every row of the table produced by delete_account's UPDATE that carries
the target id is soft-deleted. -/
theorem deleteMatches_no_live (db : DB) (now : Nat) (account_id : String) :
    ∀ r ∈ deleteMatches db now account_id, liveId account_id r = false := by
  intro r hr
  rcases List.mem_map.mp hr with ⟨r0, hr0, hmap⟩
  by_cases hc : liveId account_id r0 = true
  · rw [if_pos hc] at hmap
    rw [← hmap]
    simp [liveId]
  · rw [if_neg hc] at hmap
    rw [← hmap]
    exact Bool.eq_false_iff.mpr hc

/-- C6: for a live row with the given id, delete_account succeeds; then
get_account_by_id raises AccountNotFoundError and a second delete_account
also raises AccountNotFoundError. -/
theorem delete_account_then_get_not_found (db : DB) (now now2 : Nat)
    (account_id : String)
    (h : ∃ r ∈ db, r.id = account_id ∧ r.deleted_at = none) :
    AccountRepository.delete_account db now false account_id =
      .ok (deleteMatches db now account_id) ∧
    AccountRepository.get_account_by_id (deleteMatches db now account_id)
      false account_id = .error .accountNotFound ∧
    AccountRepository.delete_account (deleteMatches db now account_id) now2
      false account_id = .error .accountNotFound := by
  have hcount : (deleteMatches db now account_id).countP (liveId account_id)
      = 0 := by
    rw [List.countP_eq_zero]
    intro r hr
    simp [deleteMatches_no_live db now account_id r hr]
  have hfind : (deleteMatches db now account_id).find? (liveId account_id)
      = none := by
    rw [List.find?_eq_none]
    intro r hr
    simp [deleteMatches_no_live db now account_id r hr]
  have hpos : ¬db.countP (liveId account_id) = 0 := by
    rcases h with ⟨r, hr, hlive⟩
    have : 0 < db.countP (liveId account_id) :=
      List.countP_pos_iff.mpr ⟨r, hr, (liveId_iff account_id r).mpr hlive⟩
    omega
  refine ⟨?_, ?_, ?_⟩
  · simp [AccountRepository.delete_account, hpos]
  · simp [AccountRepository.get_account_by_id, hfind]
  · simp [AccountRepository.delete_account, hcount]

/-- Witness for C6: delete, get and re-delete on a concrete one-row table. -/
theorem delete_account_then_get_not_found_witness :
    AccountRepository.delete_account [sampleLiveRow] 5 false "id-1" =
      .ok (deleteMatches [sampleLiveRow] 5 "id-1") ∧
    AccountRepository.get_account_by_id (deleteMatches [sampleLiveRow] 5 "id-1")
      false "id-1" = .error .accountNotFound ∧
    AccountRepository.delete_account (deleteMatches [sampleLiveRow] 5 "id-1") 6
      false "id-1" = .error .accountNotFound :=
  delete_account_then_get_not_found [sampleLiveRow] 5 6 "id-1"
    ⟨sampleLiveRow, by simp, rfl, rfl⟩

/-- C7: update_account only modifies the email and status fields when they
are supplied, leaves every other stored field of each row unchanged except
updated_at, always refreshes updated_at of the target row, and raises
AccountNotFoundError exactly when the target row is absent or soft-deleted. -/
theorem update_account_frame_spec (db : DB) (now : Nat) (account_id : String)
    (dto : UpdateAccountDto) :
    (AccountRepository.update_account db now false account_id dto =
        .error .accountNotFound ↔
      ∀ r ∈ db, ¬(r.id = account_id ∧ r.deleted_at = none)) ∧
    (∀ d2 db2, AccountRepository.update_account db now false account_id dto =
        .ok (d2, db2) →
      db2.length = db.length ∧
      ∀ r2 ∈ db2, ∃ r ∈ db,
        r2.id = r.id ∧ r2.password_hash = r.password_hash ∧
        r2.is_superadmin = r.is_superadmin ∧ r2.created_at = r.created_at ∧
        r2.confirmed_at = r.confirmed_at ∧ r2.deleted_at = r.deleted_at ∧
        (¬(r.id = account_id ∧ r.deleted_at = none) → r2 = r) ∧
        (r.id = account_id ∧ r.deleted_at = none →
          r2.updated_at = now ∧ r2.email = dto.email.getD r.email ∧
          r2.status = dto.status.getD r.status)) := by
  refine ⟨update_account_notFound_iff db now account_id dto, ?_⟩
  intro d2 db2 hok
  have hdb2 := update_account_ok_inv db now account_id dto d2 db2 hok
  subst hdb2
  refine ⟨List.length_map _ _, ?_⟩
  intro r2 hr2
  rcases List.mem_map.mp hr2 with ⟨r, hr, hmap⟩
  refine ⟨r, hr, ?_⟩
  by_cases hc : liveId account_id r = true
  · rw [if_pos hc] at hmap
    rw [← hmap]
    exact ⟨rfl, rfl, rfl, rfl, rfl, rfl,
      fun hn => absurd ((liveId_iff _ _).mp hc) hn,
      fun _ => ⟨rfl, rfl, rfl⟩⟩
  · rw [if_neg hc] at hmap
    rw [← hmap]
    exact ⟨rfl, rfl, rfl, rfl, rfl, rfl, fun _ => rfl,
      fun hlive => absurd ((liveId_iff _ _).mpr hlive) hc⟩

/-- A DTO supplying only a new email. -/
def sampleUpdateDto : UpdateAccountDto := { email := some "b@x.com" }

/-- Witness for C7: updating the email of a concrete live row leaves all
other fields of that row unchanged and refreshes updated_at. -/
theorem update_account_frame_spec_witness :
    ∃ r ∈ [sampleLiveRow],
      (applyUpdate sampleUpdateDto 9 sampleLiveRow).id = r.id ∧
      (applyUpdate sampleUpdateDto 9 sampleLiveRow).password_hash =
        r.password_hash ∧
      (applyUpdate sampleUpdateDto 9 sampleLiveRow).is_superadmin =
        r.is_superadmin ∧
      (applyUpdate sampleUpdateDto 9 sampleLiveRow).created_at =
        r.created_at ∧
      (applyUpdate sampleUpdateDto 9 sampleLiveRow).confirmed_at =
        r.confirmed_at ∧
      (applyUpdate sampleUpdateDto 9 sampleLiveRow).deleted_at =
        r.deleted_at ∧
      (¬(r.id = "id-1" ∧ r.deleted_at = none) →
        applyUpdate sampleUpdateDto 9 sampleLiveRow = r) ∧
      (r.id = "id-1" ∧ r.deleted_at = none →
        (applyUpdate sampleUpdateDto 9 sampleLiveRow).updated_at = 9 ∧
        (applyUpdate sampleUpdateDto 9 sampleLiveRow).email =
          sampleUpdateDto.email.getD r.email ∧
        (applyUpdate sampleUpdateDto 9 sampleLiveRow).status =
          sampleUpdateDto.status.getD r.status) := by
  have h := (update_account_frame_spec [sampleLiveRow] 9 "id-1"
      sampleUpdateDto).2
    (readDtoOfRow (applyUpdate sampleUpdateDto 9 sampleLiveRow))
    [applyUpdate sampleUpdateDto 9 sampleLiveRow] rfl
  exact h.2 (applyUpdate sampleUpdateDto 9 sampleLiveRow) (by simp)

/-- Counterexample for C8: with every optional field of the DTO set to None,
update_account does not fail fast: on a live target row it issues the UPDATE
(whose SET clause still contains updated_at = NOW()) and returns
successfully instead of raising an error. -/
theorem update_account_zero_fields_counterexample :
    AccountRepository.update_account [sampleLiveRow] 7 false "id-1"
        ({} : UpdateAccountDto) =
      .ok (readDtoOfRow (applyUpdate {} 7 sampleLiveRow),
        [applyUpdate {} 7 sampleLiveRow]) ∧
    updateSetColumns {} = ["updated_at = NOW()"] :=
  ⟨rfl, rfl⟩

/-- C8 amended: update_account with an all-None DTO does not fail fast; it
issues an UPDATE whose SET clause contains only updated_at = NOW(), which
refreshes updated_at of the live target row and leaves every other field
unchanged, raising AccountNotFoundError only when the target row is absent
or soft-deleted. -/
theorem update_account_zero_fields_behavior (db : DB) (now : Nat)
    (account_id : String) :
    updateSetColumns {} = ["updated_at = NOW()"] ∧
    (AccountRepository.update_account db now false account_id
        ({} : UpdateAccountDto) = .error .accountNotFound ↔
      ∀ r ∈ db, ¬(r.id = account_id ∧ r.deleted_at = none)) ∧
    (∀ d2 db2, AccountRepository.update_account db now false account_id
        ({} : UpdateAccountDto) = .ok (d2, db2) →
      ∀ r2 ∈ db2, ∃ r ∈ db,
        r2.id = r.id ∧ r2.email = r.email ∧ r2.status = r.status ∧
        r2.password_hash = r.password_hash ∧
        r2.is_superadmin = r.is_superadmin ∧ r2.created_at = r.created_at ∧
        r2.confirmed_at = r.confirmed_at ∧ r2.deleted_at = r.deleted_at ∧
        (r.id = account_id ∧ r.deleted_at = none → r2.updated_at = now) ∧
        (¬(r.id = account_id ∧ r.deleted_at = none) → r2 = r)) := by
  refine ⟨rfl, update_account_notFound_iff db now account_id {}, ?_⟩
  intro d2 db2 hok
  have hdb2 := update_account_ok_inv db now account_id {} d2 db2 hok
  subst hdb2
  intro r2 hr2
  rcases List.mem_map.mp hr2 with ⟨r, hr, hmap⟩
  refine ⟨r, hr, ?_⟩
  by_cases hc : liveId account_id r = true
  · rw [if_pos hc] at hmap
    rw [← hmap]
    exact ⟨rfl, rfl, rfl, rfl, rfl, rfl, rfl, rfl, fun _ => rfl,
      fun hn => absurd ((liveId_iff _ _).mp hc) hn⟩
  · rw [if_neg hc] at hmap
    rw [← hmap]
    exact ⟨rfl, rfl, rfl, rfl, rfl, rfl, rfl, rfl,
      fun hlive => absurd ((liveId_iff _ _).mpr hlive) hc, fun _ => rfl⟩

/-- Witness for C8 amended: on an empty table the all-None update raises
AccountNotFoundError, not a fail-fast contract error. -/
theorem update_account_zero_fields_behavior_witness :
    AccountRepository.update_account [] 7 false "id-1"
        ({} : UpdateAccountDto) = .error .accountNotFound :=
  (update_account_zero_fields_behavior [] 7 "id-1").2.1.mpr (by simp)

/-- A DTO supplying only a new password hash. -/
def samplePwDto : UpdateAccountDto :=
  { password_hash := some (hash_password 3 "newpw") }

/-- C10: update_account never changes a stored password_hash: the SET clause
is built only from the email and status fields, so a password_hash supplied
in the DTO is silently ignored and every row keeps its hash. -/
theorem update_account_preserves_password_hash (db : DB) (now : Nat)
    (account_id : String) (dto : UpdateAccountDto) :
    "password_hash = %s" ∉ updateSetColumns dto ∧
    (∀ col ∈ updateSetColumns dto,
      col = "email = %s" ∨ col = "status = %s" ∨
        col = "updated_at = NOW()") ∧
    (∀ d2 db2, AccountRepository.update_account db now false account_id dto =
        .ok (d2, db2) →
      ∀ r2 ∈ db2, ∃ r ∈ db,
        r2.id = r.id ∧ r2.password_hash = r.password_hash) := by
  have hcols : ∀ col ∈ updateSetColumns dto,
      col = "email = %s" ∨ col = "status = %s" ∨
        col = "updated_at = NOW()" := by
    intro col hcol
    by_cases he : dto.email.isSome <;> by_cases hs : dto.status.isSome <;>
      simp [updateSetColumns, he, hs] at hcol <;> tauto
  refine ⟨?_, hcols, ?_⟩
  · intro hmem
    rcases hcols _ hmem with h | h | h <;> exact absurd h (by decide)
  · intro d2 db2 hok
    have hdb2 := update_account_ok_inv db now account_id dto d2 db2 hok
    subst hdb2
    intro r2 hr2
    rcases List.mem_map.mp hr2 with ⟨r, hr, hmap⟩
    refine ⟨r, hr, ?_⟩
    by_cases hc : liveId account_id r = true
    · rw [if_pos hc] at hmap
      rw [← hmap]
      exact ⟨rfl, rfl⟩
    · rw [if_neg hc] at hmap
      rw [← hmap]
      exact ⟨rfl, rfl⟩

/-- Witness for C10: an update supplying only a password_hash leaves the
concrete row's stored hash unchanged. -/
theorem update_account_preserves_password_hash_witness :
    ∃ r ∈ [sampleLiveRow],
      (applyUpdate samplePwDto 9 sampleLiveRow).id = r.id ∧
      (applyUpdate samplePwDto 9 sampleLiveRow).password_hash =
        r.password_hash := by
  have h := (update_account_preserves_password_hash [sampleLiveRow] 9 "id-1"
      samplePwDto).2.2
    (readDtoOfRow (applyUpdate samplePwDto 9 sampleLiveRow))
    [applyUpdate samplePwDto 9 sampleLiveRow] rfl
  exact h (applyUpdate samplePwDto 9 sampleLiveRow) (by simp)

/-- C1 (code-bug evidence): the repository's INSERT statement persists only
the email, and ReadAccountDto carries no password_hash attribute, so
AuthService.login wired to the real repository always raises
InvalidCredentialsError; in particular registering a valid account and then
logging in with the same credentials fails instead of returning a token
pair. -/
theorem register_then_login_invalid_credentials :
    (∀ (cfg : Config) (db : DB) (fault : Bool) (now : Nat) (email password : String),
      AuthService.login_full cfg db fault now email password =
        .error .invalidCredentials) ∧
    (∃ d db1,
      AccountService.create_account [] 0 "id-1" 7 false
        { email := "a@x.com", password := "secret1"
          confirm_password := "secret1" } = .ok (d, db1) ∧
      AuthService.login_full sampleCfg db1 false 1 "a@x.com" "secret1" =
        .error .invalidCredentials) := by
  constructor
  · intro cfg db fault now email password
    unfold AuthService.login_full repoLookup
    cases h : AccountRepository.get_account_by_email db fault email with
    | ok d => rfl
    | error e => rfl
  · exact ⟨_, _, rfl, rfl⟩

end Athena
